import Mathlib

/-!
# Verification of `asm2362_identify.py`

A shallow embedding of the core of the `asm2362-identify` tool: the USB
Mass-Storage Command Block Wrapper (CBW) construction, the session control
flow of `send_nvme_identify`, the NVMe Identify-Controller parser
`parse_identify`, the vendor-ID lookup, and the classification by `main` and
hex-dump index computation.  Byte buffers are modelled as `List Nat` (each
entry one byte), Python strings as Lean `String`.
-/

namespace Asm2362

/-- Little-endian encoding of a 32-bit value into four bytes, as produced by
`struct.pack` with format character I for an argument below 2^32. -/
def le32 (x : Nat) : List Nat :=
  [x % 256, x / 256 % 256, x / 65536 % 256, x / 16777216 % 256]

/-- Reading as struct.unpack_from does with format <H at a byte offset: the little-endian
unsigned 16-bit integer at `off` (callers guarantee the offset is in range). -/
def read_le16 (data : List Nat) (off : Nat) : Nat :=
  data.getD off 0 + 256 * data.getD (off + 1) 0

/-- Little-endian unsigned 32-bit read at a byte offset. -/
def read_le32 (data : List Nat) (off : Nat) : Nat :=
  data.getD off 0 + 256 * data.getD (off + 1) 0
    + 65536 * data.getD (off + 2) 0 + 16777216 * data.getD (off + 3) 0

/-- Line 83: `CBW_SIGNATURE = 0x43425355`. -/
def CBW_SIGNATURE : Nat := 0x43425355

/-- The BOT Command Status Wrapper signature constant 0x53425355 named by the
spec; the source never checks it (see the C5 theorems). -/
def CSW_SIGNATURE : Nat := 0x53425355

/-- Lines 63-81: the `VENDORS` table of known PCI vendor IDs, in source order. -/
def VENDORS : List (Nat × String) :=
  [(0x1987, "Phison"),
   (0x144d, "Samsung"),
   (0x15b7, "SanDisk/Western Digital"),
   (0x1e0f, "Kioxia"),
   (0x1c5c, "SK Hynix"),
   (0x126f, "Silicon Motion"),
   (0x1179, "Toshiba"),
   (0x2646, "Kingston"),
   (0x1dee, "Biwin"),
   (0x1e4b, "Maxio"),
   (0x1d97, "Shenzhen Longsys"),
   (0x025e, "Solidigm"),
   (0x8086, "Intel"),
   (0x1344, "Micron"),
   (0x1cc1, "ADATA"),
   (0xc0a9, "Micron"),
   (0x1d79, "Transcend")]

/-- Line 224: the dict lookup with default Unknown.  All keys of `VENDORS`
are distinct, so first-match lookup agrees with the Python dict. -/
def vendors_get (vid : Nat) : String :=
  match VENDORS.lookup vid with
  | some n => n
  | none => "Unknown"

/-- Line 115: `cdb = bytes([0xE6, 0x06, 0x00, 0x01] + [0x00] * 12)`. -/
def identify_cdb : List Nat := [0xE6, 0x06, 0x00, 0x01] ++ List.replicate 12 0

/-- Lines 118-119, with the values the code hardwires (signature, 4096, 0x80,
lun 0) exposed as parameters:
`cbw = struct.pack(<IIIBBB, CBW_SIGNATURE, tag, dataLength, flags, lun, len(cdb))`
followed by `cbw += cdb + bytes(16 - len(cdb))`.  Note the cdbLength byte is
`len(cdb)`, the length of the list actually passed. -/
def encodeCommandBlockWrapper (tag dataLength flags lun : Nat) (cdb : List Nat) :
    List Nat :=
  le32 CBW_SIGNATURE ++ le32 tag ++ le32 dataLength
    ++ [flags, lun, cdb.length] ++ cdb ++ List.replicate (16 - cdb.length) 0

/-- Lines 112-119: the concrete CBW sent for the Identify command, as a function
of the raw millisecond clock value `t` (line 112 masks it with 0xFFFFFFFF). -/
def identify_cbw (t : Nat) : List Nat :=
  encodeCommandBlockWrapper (t % 4294967296) 4096 0x80 0 identify_cdb

/-- The record returned by `parse_identify` (lines 135-141). -/
structure IdentifyRecord where
  vid : Nat
  ssvid : Nat
  serial : String
  model : String
  firmware : String
deriving DecidableEq

/-- Python bytes.decode with codec ascii and errors ignore: bytes at or above 0x80
are dropped, every byte below 0x80 becomes the character with that code. -/
def pyAsciiIgnore (l : List Nat) : List Char :=
  (l.filter (fun b => decide (b < 128))).map Char.ofNat

/-- The characters removed by Python `str.strip()` (those with `isspace()`
true), restricted to the ASCII range reachable after the ascii decode:
space, TAB, LF, VT, FF, CR and the separators FS, GS, RS, US.  NUL (0x00)
is not among them. -/
def isPySpace (c : Char) : Bool :=
  decide (c.toNat = 32 ∨ (9 ≤ c.toNat ∧ c.toNat ≤ 13)
    ∨ (28 ≤ c.toNat ∧ c.toNat ≤ 31))

/-- Python `str.strip()`: remove leading and trailing whitespace characters. -/
def pyStrip (l : List Char) : List Char :=
  ((l.dropWhile isPySpace).reverse.dropWhile isPySpace).reverse

/-- The composite data[a:b].decode(ascii, errors=ignore).strip() of lines 138-140. -/
def pyDecodeStrip (l : List Nat) : String :=
  String.mk (pyStrip (pyAsciiIgnore l))

/-- Python slice `data[a:b]` for `a ≤ b` (the only shape the source uses). -/
def slice (data : List Nat) (a b : Nat) : List Nat :=
  (data.drop a).take (b - a)

/-- Lines 131-141: `parse_identify`.  The guard `if not data or len(data) < 72`
collapses to the length test, since an empty buffer has length below 72. -/
def parse_identify (data : List Nat) : Option IdentifyRecord :=
  if data.length < 72 then none
  else some
    { vid := read_le16 data 0
      ssvid := read_le16 data 2
      serial := pyDecodeStrip (slice data 4 24)
      model := pyDecodeStrip (slice data 24 64)
      firmware := pyDecodeStrip (slice data 64 72) }

/-- The transport behaviour of one session for the three bulk transfers of
`send_nvme_identify` (lines 121-128): `none` means the call raises
`usb.core.USBError` (including timeout); `some` carries the return of the write
value or the bytes the read delivers. -/
structure Transport where
  write_cbw : Option Nat
  read_data : Option (List Nat)
  read_status : Option (List Nat)

/-- The three USB operations `send_nvme_identify` can attempt, in order. -/
inductive UsbOp
  | writeCbw
  | readData
  | readStatus
deriving DecidableEq

/-- Lines 121-128 of `send_nvme_identify`: write the CBW, read 4096 data
bytes, read 13 status bytes; the first `USBError` aborts the whole `try`
block and returns `None`.  The second component records which transfers
were attempted, in order. -/
def send_nvme_identify (t : Transport) : Option (List Nat) × List UsbOp :=
  match t.write_cbw with
  | none => (none, [UsbOp.writeCbw])
  | some _ =>
    match t.read_data with
    | none => (none, [UsbOp.writeCbw, UsbOp.readData])
    | some data =>
      match t.read_status with
      | none => (none, [UsbOp.writeCbw, UsbOp.readData, UsbOp.readStatus])
      | some _ => (some data, [UsbOp.writeCbw, UsbOp.readData, UsbOp.readStatus])

/-- The three observable outcomes of `main` after `send_nvme_identify`
(lines 211-224): noResponse prints `No response from drive` and exits 1,
invalidIdentity prints `Invalid response - firmware may be blocking identify`
and exits 1, success prints the identity and exits 0. -/
inductive Outcome
  | noResponse
  | invalidIdentity
  | success (r : IdentifyRecord)
deriving DecidableEq

/-- Lines 213-224 of `main`: `if not data` (None or empty) exits with the
no-response error; otherwise `parse_identify` runs and
`if not result or result[vid] in (0, 0xFFFF)` exits with the single
invalid-response error; otherwise the identity is reported. -/
def main_classify (data : Option (List Nat)) : Outcome :=
  match data with
  | none => Outcome.noResponse
  | some d =>
    if d = [] then Outcome.noResponse
    else
      match parse_identify d with
      | none => Outcome.invalidIdentity
      | some r =>
        if r.vid = 0 ∨ r.vid = 0xFFFF then Outcome.invalidIdentity
        else Outcome.success r

/-- Line 240: `range(0, 80, 16)`. -/
def dump_rows : List Nat := [0, 16, 32, 48, 64]

/-- Lines 240-242: the indices `j` enumerated by
`range(i, min(i+16, len(data)))` across all rows `i`, for a buffer of
length `n`. -/
def dump_indices (n : Nat) : List Nat :=
  dump_rows.flatMap (fun i => List.range' i (min (i + 16) n - i))

/-- Scenario A input: 4096 zero bytes. -/
def zero_buffer : List Nat := List.replicate 4096 0

/-- Scenario B input: bytes 0-1 hold 0x144d little-endian, bytes 24-63 spell
the model string padded with spaces, everything else zero (72 bytes total). -/
def scenario_b_buffer : List Nat :=
  [0x4d, 0x14] ++ List.replicate 22 0
    ++ ("Samsung SSD 990 PRO 1TB".toList.map Char.toNat)
    ++ List.replicate 17 32 ++ List.replicate 8 0

/-- A 72-byte buffer whose serial field is one letter followed by 19 NUL
bytes (the padding style the spec says is trimmed). -/
def nul_padded_buffer : List Nat :=
  List.replicate 4 0 ++ (65 :: List.replicate 19 0)
    ++ List.replicate 40 66 ++ List.replicate 8 67

/-! ## Helper lemmas -/

/-- Default-valued reads on a 72-byte head agree with reads on the full buffer. -/
theorem getD_take_72 (l : List Nat) (i : Nat) (h : i < 72) :
    (l.take 72).getD i 0 = l.getD i 0 := by
  simp [List.getD_eq_getElem?_getD, List.getElem?_take, h]

/-- A 16-bit read wholly inside the first 72 bytes ignores the rest. -/
theorem read_le16_take_72 (l : List Nat) (off : Nat) (h : off + 1 < 72) :
    read_le16 (l.take 72) off = read_le16 l off := by
  unfold read_le16
  rw [getD_take_72 _ _ (by omega), getD_take_72 _ _ (by omega)]

/-- A slice ending at or before byte 72 ignores the rest of the buffer. -/
theorem slice_take_72 (l : List Nat) (a b : Nat) (hb : b ≤ 72) :
    slice (l.take 72) a b = slice l a b := by
  unfold slice
  rw [List.drop_take, List.take_take]
  congr 1
  omega

/-- The parser only looks at the first 72 bytes of the buffer. -/
theorem parse_identify_take_72 (d : List Nat) (h : 72 ≤ d.length) :
    parse_identify (d.take 72) = parse_identify d := by
  unfold parse_identify
  rw [if_neg (show ¬ (d.take 72).length < 72 by
        simp only [List.length_take]; omega),
      if_neg (show ¬ d.length < 72 by omega)]
  simp only [Option.some.injEq, IdentifyRecord.mk.injEq]
  refine ⟨?_, ?_, ?_, ?_, ?_⟩
  · exact read_le16_take_72 d 0 (by omega)
  · exact read_le16_take_72 d 2 (by omega)
  · rw [slice_take_72 d 4 24 (by omega)]
  · rw [slice_take_72 d 24 64 (by omega)]
  · rw [slice_take_72 d 64 72 (by omega)]

/-- Default-valued reads on an all-zero buffer give 0 at every index. -/
theorem getD_replicate_zero (n i : Nat) :
    (List.replicate n (0 : Nat)).getD i 0 = 0 := by
  rw [List.getD_eq_getElem?_getD, List.getElem?_replicate]
  split <;> rfl

/-- An all-zero buffer of length at least 72 parses to a record with vid 0. -/
theorem parse_identify_zero (n : Nat) (h : 72 ≤ n) :
    ∃ r, parse_identify (List.replicate n 0) = some r ∧ r.vid = 0 := by
  unfold parse_identify
  rw [if_neg (by simp only [List.length_replicate]; omega)]
  refine ⟨_, rfl, ?_⟩
  show read_le16 (List.replicate n 0) 0 = 0
  unfold read_le16
  rw [getD_replicate_zero, getD_replicate_zero]

/-- Lines 217-221: a parsed record whose vid is 0x0000 or 0xFFFF lands in
the same invalid-response branch as a failed parse. -/
theorem main_classify_some_invalid (d : List Nat) (r : IdentifyRecord)
    (hp : parse_identify d = some r) (hv : r.vid = 0 ∨ r.vid = 0xFFFF) :
    main_classify (some d) = Outcome.invalidIdentity := by
  have hne : ¬ d = [] := by
    intro he
    rw [he] at hp
    simp [parse_identify] at hp
  have hd : main_classify (some d)
      = match parse_identify d with
        | none => Outcome.invalidIdentity
        | some r =>
          if r.vid = 0 ∨ r.vid = 0xFFFF then Outcome.invalidIdentity
          else Outcome.success r := by
    simp only [main_classify, if_neg hne]
  rw [hd, hp]
  exact if_pos hv

/-! ## Claim theorems -/

/-- C1: for every 32-bit tag and CDB of at most 16 bytes, the CBW built the
way lines 118-119 build it (data length 4096, device-to-host flags 0x80) is
exactly 31 bytes, starts with the little-endian CBW signature
`55 53 42 53`-order bytes of 0x43425355, and its 16-byte cdb field is
zero-padded beyond the supplied CDB bytes. -/
theorem c1_encode_cbw_shape (tag : Nat) (cdb : List Nat)
    ( _htag : tag < 4294967296) (hlen : cdb.length ≤ 16) :
    (encodeCommandBlockWrapper tag 4096 0x80 0 cdb).length = 31
    ∧ (encodeCommandBlockWrapper tag 4096 0x80 0 cdb).take 4
        = [0x55, 0x53, 0x42, 0x43]
    ∧ (encodeCommandBlockWrapper tag 4096 0x80 0 cdb).drop (15 + cdb.length)
        = List.replicate (16 - cdb.length) 0 := by
  refine ⟨?_, rfl, ?_⟩
  · simp only [encodeCommandBlockWrapper, le32, List.length_append,
      List.length_cons, List.length_nil, List.length_replicate]
    omega
  · have h : encodeCommandBlockWrapper tag 4096 0x80 0 cdb
        = (le32 CBW_SIGNATURE ++ le32 tag ++ le32 4096 ++ [0x80, 0, cdb.length])
          ++ (cdb ++ List.replicate (16 - cdb.length) 0) := by
      simp [encodeCommandBlockWrapper, List.append_assoc]
    rw [h, show 15 + cdb.length
        = (le32 CBW_SIGNATURE ++ le32 tag ++ le32 4096
            ++ [0x80, 0, cdb.length]).length + cdb.length from by
          simp [le32],
      List.drop_append, List.drop_left]

/-- C1 witness: the general theorem applied to the Identify CDB head. -/
theorem c1_witness :
    (encodeCommandBlockWrapper 5 4096 0x80 0 [0xE6, 0x06, 0x00, 0x01]).length = 31
    ∧ (encodeCommandBlockWrapper 5 4096 0x80 0 [0xE6, 0x06, 0x00, 0x01]).take 4
        = [0x55, 0x53, 0x42, 0x43]
    ∧ (encodeCommandBlockWrapper 5 4096 0x80 0 [0xE6, 0x06, 0x00, 0x01]).drop 19
        = List.replicate 12 0 :=
  c1_encode_cbw_shape 5 [0xE6, 0x06, 0x00, 0x01] (by decide) (by decide)

/-- C2 counterexample: the cdbLength byte (offset 14) of the CBW the code
sends is 16, not 4, because line 118 passes `len(cdb)` of the already
padded 16-byte CDB. -/
theorem c2_counterexample :
    (identify_cbw 0).getD 14 99 = 16 ∧ ¬ (identify_cbw 0).getD 14 99 = 4 := by
  decide

/-- C2 (amended): the CBW sent for Identify has dataTransferLength 4096
(little-endian at offset 8), flags 0x80, lun 0, cdbLength byte 16 (the full
padded CDB length), and its cdb field holds exactly 0xE6 0x06 0x00 0x01
followed by twelve zero bytes — for every clock value used as tag. -/
theorem c2_identify_cbw_fields (t : Nat) :
    read_le32 (identify_cbw t) 8 = 4096
    ∧ (identify_cbw t).getD 12 0 = 0x80
    ∧ (identify_cbw t).getD 13 0 = 0
    ∧ (identify_cbw t).getD 14 0 = 16
    ∧ slice (identify_cbw t) 15 31
        = [0xE6, 0x06, 0x00, 0x01] ++ List.replicate 12 0 :=
  ⟨rfl, rfl, rfl, rfl, rfl⟩

/-- C3: `parse_identify` returns nothing for any buffer shorter than 72
bytes, and for any buffer of length at least 72 it returns a record whose
vid and ssvid fields are the little-endian 16-bit reads at offsets 0 and 2,
whatever the string fields contain. -/
theorem c3_parse_short_and_ids (data : List Nat) :
    (data.length < 72 → parse_identify data = none)
    ∧ (72 ≤ data.length → ∃ r, parse_identify data = some r
        ∧ r.vid = read_le16 data 0 ∧ r.ssvid = read_le16 data 2) := by
  constructor
  · intro h
    unfold parse_identify
    rw [if_pos h]
  · intro h
    unfold parse_identify
    rw [if_neg (by omega)]
    exact ⟨_, rfl, rfl, rfl⟩

/-- C3 witness: both branches at concrete buffers. -/
theorem c3_witness :
    parse_identify (List.replicate 71 0) = none
    ∧ ∃ r, parse_identify (List.replicate 72 0) = some r
        ∧ r.vid = read_le16 (List.replicate 72 0) 0
        ∧ r.ssvid = read_le16 (List.replicate 72 0) 2 :=
  ⟨(c3_parse_short_and_ids (List.replicate 71 0)).1 (by decide),
   (c3_parse_short_and_ids (List.replicate 72 0)).2 (by decide)⟩

/-- C9: the decode depends only on the first 72 bytes — two buffers of
length at least 72 that agree on bytes 0 through 71 parse identically. -/
theorem c9_parse_depends_on_head (d1 d2 : List Nat)
    (h1 : 72 ≤ d1.length) (h2 : 72 ≤ d2.length)
    (hagree : d1.take 72 = d2.take 72) :
    parse_identify d1 = parse_identify d2 := by
  rw [← parse_identify_take_72 d1 h1, ← parse_identify_take_72 d2 h2, hagree]

/-- C9 witness: a 73-byte and a 72-byte buffer agreeing on the head. -/
theorem c9_witness :
    parse_identify (List.replicate 72 0 ++ [5]) = parse_identify (List.replicate 72 0) :=
  c9_parse_depends_on_head (List.replicate 72 0 ++ [5]) (List.replicate 72 0)
    (by decide) (by decide) (by decide)

/-- C10: every index the hex/ASCII dump of lines 240-242 reads is within
the buffer, whatever the buffer length. -/
theorem c10_dump_indices_in_bounds (n j : Nat) (h : j ∈ dump_indices n) :
    j < n := by
  unfold dump_indices dump_rows at h
  simp only [List.mem_flatMap] at h
  obtain ⟨i, hi, hj⟩ := h
  rw [List.mem_range'_1] at hj
  fin_cases hi <;> omega

/-- C10 witness: index 0 on a one-byte buffer. -/
theorem c10_witness : 0 ∈ dump_indices 1 ∧ 0 < 1 :=
  ⟨by decide, c10_dump_indices_in_bounds 1 0 (by decide)⟩

/-- C4 counterexample: a serial field of one letter followed by 19 NUL
bytes is decoded with the NULs retained — `str.strip()` removes whitespace
only, so NUL padding is not trimmed and the claimed serial is not produced. -/
theorem c4_counterexample :
    (parse_identify nul_padded_buffer).map IdentifyRecord.serial
      = some (String.mk (Char.ofNat 65 :: List.replicate 19 (Char.ofNat 0)))
    ∧ ¬ (parse_identify nul_padded_buffer).map IdentifyRecord.serial = some "A" := by
  decide

/-- C4 (amended): for every buffer of length at least 72 the string fields
are the byte ranges 4-24, 24-64 and 64-72 with bytes at or above 0x80
dropped and leading and trailing Python whitespace stripped; NUL is not a
whitespace character, so NUL padding is retained, not trimmed. -/
theorem c4_parse_ascii_fields (data : List Nat) (h : 72 ≤ data.length) :
    (∃ r, parse_identify data = some r
      ∧ r.serial = String.mk (pyStrip (pyAsciiIgnore ((data.drop 4).take 20)))
      ∧ r.model = String.mk (pyStrip (pyAsciiIgnore ((data.drop 24).take 40)))
      ∧ r.firmware = String.mk (pyStrip (pyAsciiIgnore ((data.drop 64).take 8))))
    ∧ isPySpace (Char.ofNat 0) = false := by
  constructor
  · unfold parse_identify
    rw [if_neg (by omega)]
    exact ⟨_, rfl, rfl, rfl, rfl⟩
  · decide

/-- C4 witness: an all-spaces buffer decodes with an empty serial. -/
theorem c4_witness :
    ∃ r, parse_identify (List.replicate 72 32) = some r ∧ r.serial = "" := by
  obtain ⟨⟨r, hr, h1, h2, h3⟩, h0⟩ :=
    c4_parse_ascii_fields (List.replicate 72 32) (by decide)
  refine ⟨r, hr, ?_⟩
  rw [h1]
  decide

/-- C5 counterexample: a 13-byte all-zero status buffer has the wrong CSW
signature, and an empty status read has the wrong length, yet
`send_nvme_identify` still returns the data in both cases — the code never
checks the length or signature of the CSW, so no malformed-response failure
occurs. -/
theorem c5_counterexample :
    ¬ read_le32 (List.replicate 13 0) 0 = CSW_SIGNATURE
    ∧ send_nvme_identify ⟨some 31, some [1, 2, 3], some (List.replicate 13 0)⟩
        = (some [1, 2, 3], [UsbOp.writeCbw, UsbOp.readData, UsbOp.readStatus])
    ∧ send_nvme_identify ⟨some 31, some [1, 2, 3], some []⟩
        = (some [1, 2, 3], [UsbOp.writeCbw, UsbOp.readData, UsbOp.readStatus]) := by
  decide

/-- C5 (amended): the status read is only drained — whenever the three
transfers complete, the data is returned whatever status bytes arrived,
and only a transport error on the status read aborts the session (with the
already-read data discarded). -/
theorem c5_csw_not_validated (w : Nat) (d s : List Nat) :
    send_nvme_identify ⟨some w, some d, some s⟩
      = (some d, [UsbOp.writeCbw, UsbOp.readData, UsbOp.readStatus])
    ∧ send_nvme_identify ⟨some w, some d, none⟩
      = (none, [UsbOp.writeCbw, UsbOp.readData, UsbOp.readStatus]) :=
  ⟨rfl, rfl⟩

/-- C6: if the bulk-OUT write of the CBW raises, the session returns no
data, attempts the write exactly once and attempts neither bulk-IN read,
and `main` reports the no-response failure. -/
theorem c6_write_failure_aborts (d s : Option (List Nat)) :
    send_nvme_identify ⟨none, d, s⟩ = (none, [UsbOp.writeCbw])
    ∧ main_classify (send_nvme_identify ⟨none, d, s⟩).1 = Outcome.noResponse :=
  ⟨rfl, rfl⟩

/-- C7 counterexample: the all-zero 4096-byte buffer is classified exactly
like a structural decode failure (a 71-byte buffer, on which
`parse_identify` returns nothing) — lines 219-221 use one branch, one
message and one exit code for both, so the two are not distinct. -/
theorem c7_counterexample :
    parse_identify (List.replicate 71 0) = none
    ∧ main_classify (some zero_buffer) = main_classify (some (List.replicate 71 0)) := by
  refine ⟨rfl, ?_⟩
  obtain ⟨r0, hr0, hv0⟩ := parse_identify_zero 4096 (by omega)
  have hL := main_classify_some_invalid (List.replicate 4096 0) r0 hr0 (Or.inl hv0)
  have hR : main_classify (some (List.replicate 71 0)) = Outcome.invalidIdentity := by
    decide
  show main_classify (some (List.replicate 4096 0))
      = main_classify (some (List.replicate 71 0))
  rw [hL, hR]

/-- C7 (amended): the all-zero buffer parses to vid 0 and `main` classifies
it as the fatal invalid-identity outcome (non-zero exit); any parsed record
with vid 0x0000 or 0xFFFF is classified the same way — but through the same
branch and message as a structural decode failure, not distinctly. -/
theorem c7_zero_buffer_blocked :
    (∃ r, parse_identify zero_buffer = some r ∧ r.vid = 0)
    ∧ main_classify (some zero_buffer) = Outcome.invalidIdentity
    ∧ ∀ (d : List Nat) (r : IdentifyRecord), parse_identify d = some r →
        (r.vid = 0 ∨ r.vid = 0xFFFF) →
        main_classify (some d) = Outcome.invalidIdentity := by
  obtain ⟨r0, hr0, hv0⟩ : ∃ r, parse_identify zero_buffer = some r ∧ r.vid = 0 := by
    unfold zero_buffer
    exact parse_identify_zero 4096 (by omega)
  exact ⟨⟨r0, hr0, hv0⟩,
    main_classify_some_invalid zero_buffer r0 hr0 (Or.inl hv0),
    fun d r hp hv => main_classify_some_invalid d r hp hv⟩

/-- C7 witness: the quantified part applied to the all-zero buffer. -/
theorem c7_witness :
    main_classify (some zero_buffer) = Outcome.invalidIdentity := by
  obtain ⟨⟨r, hr, hv⟩, hc, hall⟩ := c7_zero_buffer_blocked
  exact hall zero_buffer r hr (Or.inl hv)

/-- C8: the Scenario B buffer decodes to vid 0x144d and the claimed model
string, the vendor table resolves 0x144d to Samsung, and any vendor ID
absent from the table renders as Unknown. -/
theorem c8_scenario_b :
    (parse_identify scenario_b_buffer).map IdentifyRecord.vid = some 0x144d
    ∧ (parse_identify scenario_b_buffer).map IdentifyRecord.model
        = some "Samsung SSD 990 PRO 1TB"
    ∧ vendors_get 0x144d = "Samsung"
    ∧ ∀ v, VENDORS.lookup v = none → vendors_get v = "Unknown" := by
  refine ⟨by decide, by decide, by decide, ?_⟩
  intro v hv
  unfold vendors_get
  rw [hv]

/-- C8 witness: an unmapped vendor ID renders as Unknown. -/
theorem c8_witness : vendors_get 0x9999 = "Unknown" :=
  c8_scenario_b.2.2.2 0x9999 (by decide)


end Asm2362
